import Mathlib

/-!
Shallow embedding of the core of the mini-jira-app repository
(src/src-tauri/src/jira_api.rs, jira_types.rs, lib.rs), together with
theorems settling the specification claims about it.

Modelling conventions:
* Rust `u32` is modelled as `Nat` with explicit clamping to `[0, 2^32 - 1]`
  where the source performs an `as u32` cast.
* The `f32` arithmetic of `parse_time_to_seconds` is idealised as exact
  decimal arithmetic: a parsed finite number is carried as an exact pair
  (numerator, power-of-ten scale), and its meaning as a rational is given
  by `DecNum.toRat`; the special values of Rust's float grammar (the
  case-insensitive `inf`, `infinity` and `nan` forms, all of which
  `str::parse::<f32>` accepts) are carried symbolically by `FloatVal` and
  cast the way Rust casts them. The idealisation of finite arithmetic is
  exact precisely where f32 arithmetic is exact; the theorems below
  quantify only over such inputs (non-negative integer literals whose
  scaled product is below `2^24`, concrete literals checked to be
  f32-exact), so no proved statement depends on the absence of f32
  rounding.
* Network I/O is modelled by an explicit `Transport` function from requests
  to either a transport-level error or an HTTP response.
* The Tauri-managed `Mutex<Option<JiraClient>>` session cell is modelled as
  an `Option JiraClient` state threaded through the command functions; lock
  poisoning (which the source surfaces as a string error) is not modelled.
-/

/-! ## Character-list helpers for the duration parser -/

/-- Digit list to natural number, most significant first
(the usual fold used by decimal parsing). -/
def digitsToNat (cs : List Char) : Nat :=
  cs.foldl (fun acc c => acc * 10 + (c.toNat - 48)) 0

/-- Models Rust `str::ends_with(char)`: the last character of the string
equals `c`. -/
def strEndsWithChar (s : String) (c : Char) : Bool :=
  match s.toList.getLast? with
  | some c2 => c2 == c
  | none => false

/-- Models the byte slice `&s[..s.len()-1]` for a string whose last
character is ASCII: drop the final character. -/
def strDropLast (s : String) : String :=
  (s.toList.dropLast).asString

/-- Models Rust `char::is_whitespace`: the Unicode White_Space property,
whose code points are U+0009–U+000D, U+0020, U+0085, U+00A0, U+1680,
U+2000–U+200A, U+2028, U+2029, U+202F, U+205F and U+3000. -/
def isRustWhitespace (c : Char) : Bool :=
  (0x09 ≤ c.toNat && c.toNat ≤ 0x0D) || c.toNat = 0x20 || c.toNat = 0x85 ||
    c.toNat = 0xA0 || c.toNat = 0x1680 ||
    (0x2000 ≤ c.toNat && c.toNat ≤ 0x200A) ||
    c.toNat = 0x2028 || c.toNat = 0x2029 || c.toNat = 0x202F ||
    c.toNat = 0x205F || c.toNat = 0x3000

/-- Models Rust `str::trim`: remove leading and trailing characters with
the Unicode White_Space property. -/
def strTrim (s : String) : String :=
  (((s.toList.dropWhile isRustWhitespace).reverse.dropWhile isRustWhitespace).reverse).asString

/-- An exact decimal number: the value is `(-1 if neg) * num / 10 ^ scale`.
This carries the result of parsing a decimal float literal without any
floating-point rounding. -/
structure DecNum where
  neg : Bool
  num : Nat
  scale : Nat
deriving DecidableEq, Repr

/-- The rational value denoted by a `DecNum`. -/
def DecNum.toRat (d : DecNum) : ℚ :=
  (if d.neg then -1 else 1) * (d.num : ℚ) / (10 : ℚ) ^ d.scale

/-- Exponent suffix of a float literal: optional sign followed by a
non-empty digit run. Returns (negative?, magnitude). -/
def parseExpPart (cs : List Char) : Option (Bool × Nat) :=
  match cs with
  | '-' :: ds =>
    if !ds.isEmpty && ds.all Char.isDigit then some (true, digitsToNat ds) else none
  | '+' :: ds =>
    if !ds.isEmpty && ds.all Char.isDigit then some (false, digitsToNat ds) else none
  | ds =>
    if !ds.isEmpty && ds.all Char.isDigit then some (false, digitsToNat ds) else none

/-- Unsigned mantissa of a float literal: `digits`, `digits.digits`,
`.digits` or `digits.` with at least one digit overall. Returns the
numerator and the power-of-ten scale (the number of fraction digits). -/
def parseMantissa (cs : List Char) : Option (Nat × Nat) :=
  let ip := cs.takeWhile (fun c => c != '.')
  let rest := cs.dropWhile (fun c => c != '.')
  match rest with
  | [] =>
    if !ip.isEmpty && ip.all Char.isDigit then some (digitsToNat ip, 0) else none
  | _ :: fp =>
    if fp.contains '.' then none
    else if ip.isEmpty && fp.isEmpty then none
    else if ip.all Char.isDigit && fp.all Char.isDigit then
      some (digitsToNat (ip ++ fp), fp.length)
    else none

/-- Unsigned float literal: mantissa with an optional `e`/`E` exponent. A
positive exponent multiplies the numerator, a negative exponent deepens
the scale; either way the value stays exact. -/
def parseDecimalUnsigned (cs : List Char) : Option (Nat × Nat) :=
  let mant := cs.takeWhile (fun c => c != 'e' && c != 'E')
  let rest := cs.dropWhile (fun c => c != 'e' && c != 'E')
  match rest with
  | [] => parseMantissa mant
  | _ :: ex =>
    match parseMantissa mant, parseExpPart ex with
    | some (n, sc), some (true, k) => some (n, sc + k)
    | some (n, sc), some (false, k) => some (n * 10 ^ k, sc)
    | _, _ => none

/-- The result of Rust's float grammar: a finite decimal number, a signed
infinity, or NaN (Rust's `f32::from_str` accepts the case-insensitive
forms `inf`, `infinity` and `nan`, with an optional sign). -/
inductive FloatVal
  | finite (d : DecNum)
  | inf (neg : Bool)
  | nan
deriving DecidableEq, Repr

/-- The body of a float literal after the optional sign: the special
forms `inf`, `infinity` and `nan` (case-insensitive), or an unsigned
finite literal carrying the given sign. -/
def parseFloatUnsigned (cs : List Char) (neg : Bool) : Option FloatVal :=
  let lower := cs.map Char.toLower
  if lower = ['i', 'n', 'f'] || lower = ['i', 'n', 'f', 'i', 'n', 'i', 't', 'y'] then
    some (.inf neg)
  else if lower = ['n', 'a', 'n'] then
    some .nan
  else
    (parseDecimalUnsigned cs).map (fun p => .finite ⟨neg, p.1, p.2⟩)

/-- Models `number_part.parse::<f32>()`: optional sign, then either a
special form or an unsigned float literal; finite values are idealised
to exact decimal arithmetic (see `decScaleAsU32` for where that
idealisation is and is not exact). -/
def parseDecimal (s : String) : Option FloatVal :=
  match s.toList with
  | '-' :: rest => parseFloatUnsigned rest true
  | '+' :: rest => parseFloatUnsigned rest false
  | cs => parseFloatUnsigned cs false

/-- Models the Rust saturating cast `(number * factor) as u32` for a
finite parsed number, idealising the f32 arithmetic as exact: a negative
value is clamped to 0, a non-negative value is truncated toward zero
(natural division by the power-of-ten scale), and anything above
`u32::MAX` saturates to `2 ^ 32 - 1`. The idealisation agrees with the
program exactly when both the number and the product are exactly
representable in f32 — in particular for every non-negative integer
number whose product is below `2 ^ 24`, and for the concrete literals
appearing in the theorems below (each checked to be f32-exact); the
proved statements quantify only over that regime, because for other
inputs (e.g. "1.05h") the f32 rounding of the literal and of the product
can shift the truncated result by one. -/
def decScaleAsU32 (d : DecNum) (factor : Nat) : Nat :=
  if d.neg then 0
  else min (d.num * factor / 10 ^ d.scale) (2 ^ 32 - 1)

/-- The Rust cast `(x * factor) as u32` over a full float-grammar value
with a positive factor: a finite value goes through `decScaleAsU32`,
positive infinity saturates to `u32::MAX`, and negative infinity and NaN
cast to 0. -/
def floatScaleAsU32 (v : FloatVal) (factor : Nat) : Nat :=
  match v with
  | .finite d => decScaleAsU32 d factor
  | .inf neg => if neg then 0 else 2 ^ 32 - 1
  | .nan => 0

/-- Decidable equality for `Except`, used to evaluate the embedded
operations on concrete inputs. -/
instance {ε α : Type} [DecidableEq ε] [DecidableEq α] : DecidableEq (Except ε α) := fun x y =>
  match x, y with
  | .ok a, .ok b => if h : a = b then isTrue (by rw [h]) else isFalse (by simp [h])
  | .error a, .error b => if h : a = b then isTrue (by rw [h]) else isFalse (by simp [h])
  | .ok _, .error _ => isFalse (by simp)
  | .error _, .ok _ => isFalse (by simp)

/-- Error taxonomy of `JiraClient::parse_time_to_seconds`: the source
returns boxed string errors; `emptyInput` is "Time string is empty",
`invalidFormat` is the invalid-format message, and `numParse` is the
`ParseFloatError` propagated by the `?` on `number_part.parse()`. -/
inductive TimeParseError
  | emptyInput
  | invalidFormat
  | numParse
deriving DecidableEq, Repr

/-- The unit-suffix split of `parse_time_to_seconds`: the trailing
character is checked against `h`, then `m`, then `d`; on a match the
number part is everything before it. -/
def splitUnit (t : String) : Option (String × String) :=
  if strEndsWithChar t 'h' then some (strDropLast t, "h")
  else if strEndsWithChar t 'm' then some (strDropLast t, "m")
  else if strEndsWithChar t 'd' then some (strDropLast t, "d")
  else none

namespace JiraClient

/-- Embedding of `JiraClient::parse_time_to_seconds` (jira_api.rs lines
100–126). Note the order of operations in the source: the emptiness check
runs on the UNTRIMMED input, and only then is the input trimmed; the
scaling factors are 3600 for hours, 60 for minutes and 8·3600 for days,
and the `as u32` cast is the saturating truncation `floatScaleAsU32`. -/
def parse_time_to_seconds (time_str : String) : Except TimeParseError Nat :=
  if time_str = "" then
    .error .emptyInput
  else
    let t := strTrim time_str
    match splitUnit t with
    | none => .error .invalidFormat
    | some (numberPart, unitPart) =>
      match parseDecimal numberPart with
      | none => .error .numParse
      | some number =>
        let seconds :=
          if unitPart = "h" then floatScaleAsU32 number 3600
          else if unitPart = "m" then floatScaleAsU32 number 60
          else floatScaleAsU32 number (8 * 3600)
        .ok seconds

end JiraClient


/-! ## Data model (jira_types.rs) -/

/-- `IssueAssignee` (jira_types.rs lines 21–27). -/
structure IssueAssignee where
  display_name : String
  email_address : String
deriving DecidableEq, Repr

/-- `IssueStatus` (jira_types.rs lines 16–19). -/
structure IssueStatus where
  name : String
deriving DecidableEq, Repr

/-- `IssueFields` (jira_types.rs lines 9–14). -/
structure IssueFields where
  summary : String
  status : IssueStatus
  assignee : Option IssueAssignee
deriving DecidableEq, Repr

/-- `JiraIssue` (jira_types.rs lines 3–7). -/
structure JiraIssue where
  key : String
  fields : IssueFields
deriving DecidableEq, Repr

/-- `JiraSearchResponse` (jira_types.rs lines 29–37). -/
structure JiraSearchResponse where
  issues : List JiraIssue
  total : Nat
  start_at : Nat
  max_results : Nat
deriving DecidableEq, Repr

/-- `WorklogText` (jira_types.rs lines 54–59): serialised as
`{type: <text_type>, text: <text>}`. -/
structure WorklogText where
  text_type : String
  text : String
deriving DecidableEq, Repr

/-- `WorklogParagraph` (jira_types.rs lines 47–52). -/
structure WorklogParagraph where
  paragraph_type : String
  content : List WorklogText
deriving DecidableEq, Repr

/-- `WorklogComment` (jira_types.rs lines 39–45): serialised as
`{type: <doc_type>, version: <version>, content: [...]}`. -/
structure WorklogComment where
  doc_type : String
  version : Nat
  content : List WorklogParagraph
deriving DecidableEq, Repr

/-- `WorklogVisibility` (jira_types.rs lines 61–66). -/
structure WorklogVisibility where
  visibility_type : String
  identifier : String
deriving DecidableEq, Repr

/-- `WorklogRequest` as DECLARED in jira_types.rs lines 68–74: the
`comment` field is a plain `String` and there is no `visibility` field.
Compare with `WorklogRequestBuilt`, the shape actually constructed by
`JiraClient::create_worklog` in jira_api.rs; the two disagree, so the
Rust crate as given does not type-check (error E0308/E0560 at
jira_api.rs lines 65–80). -/
structure WorklogRequestDecl where
  comment : String
  started : String
  time_spent_seconds : Nat
deriving DecidableEq, Repr

/-- `WorklogRequest` as CONSTRUCTED by `JiraClient::create_worklog`
(jira_api.rs lines 65–80): a rich-text `WorklogComment` document plus an
optional `visibility`. This is the shape the specification describes; it
does not match the declaration `WorklogRequestDecl` in jira_types.rs. -/
structure WorklogRequestBuilt where
  comment : WorklogComment
  started : String
  time_spent_seconds : Nat
  visibility : Option WorklogVisibility
deriving DecidableEq, Repr

/-- `WorklogResponse` (jira_types.rs lines 76–84). -/
structure WorklogResponse where
  id : String
  issue_id : String
  started : String
  time_spent_seconds : Nat
deriving DecidableEq, Repr

/-! ## HTTP transport model -/

/-- HTTP method of a request issued by the client (only GET and POST are
used by the source). -/
inductive HttpMethod
  | get
  | post
deriving DecidableEq, Repr

/-- The observable content of a reqwest request as built by the source:
method, URL, headers, HTTP Basic auth pair, query parameters, and (for
the worklog POST) the serialised JSON body. -/
structure HttpRequest where
  method : HttpMethod
  url : String
  headers : List (String × String)
  authUser : String
  authPass : String
  query : List (String × String)
  body : Option WorklogRequestBuilt
deriving DecidableEq, Repr

/-- An HTTP response: the status code plus the decoded JSON body, when
the body decodes as the type the caller expects (`none` models a body
that fails to decode). -/
structure HttpResponse where
  status : Nat
  searchBody : Option JiraSearchResponse
  worklogBody : Option WorklogResponse
deriving DecidableEq, Repr

/-- Models `reqwest::StatusCode::is_success`: the 2xx range. -/
def statusIsSuccess (status : Nat) : Bool :=
  200 ≤ status && status ≤ 299

/-- A network transport: either delivers an `HttpResponse` for a request
or fails below the HTTP layer with a transport error (the `?` on
`send()` in the source). -/
def Transport : Type :=
  HttpRequest → Except String HttpResponse

/-! ## JiraClient operations (jira_api.rs) -/

/-- The credential part of `JiraClient` (jira_api.rs lines 6–12). The
reqwest handle (built with `danger_accept_invalid_certs(true)`) is
modelled separately as the `Transport` argument of each operation. -/
structure JiraClient where
  base_url : String
  email : String
  access_token : String
deriving DecidableEq, Repr

namespace JiraClient

/-- `JiraClient::new` (jira_api.rs lines 15–28): stores the credentials
verbatim. -/
def new (base_url email access_token : String) : JiraClient :=
  ⟨base_url, email, access_token⟩

/-- The probe request issued by `test_connection` (jira_api.rs lines
128–140): authenticated GET on the current-user endpoint. -/
def myselfRequest (c : JiraClient) : HttpRequest :=
  ⟨.get, c.base_url ++ "/rest/api/3/myself", [("Accept", "application/json")],
    c.email, c.access_token, [], none⟩

/-- `JiraClient::test_connection` (jira_api.rs lines 128–140): sends the
probe and returns whether the status is a success; a transport failure
propagates as an error. -/
def test_connection (c : JiraClient) (transport : Transport) : Except String Bool :=
  match transport (myselfRequest c) with
  | .error e => .error e
  | .ok resp => .ok (statusIsSuccess resp.status)

/-- The search request issued by `get_assigned_issues` (jira_api.rs
lines 31–44). -/
def searchRequest (c : JiraClient) : HttpRequest :=
  ⟨.get, c.base_url ++ "/rest/api/3/search", [("Accept", "application/json")],
    c.email, c.access_token,
    [("jql", "assignee=currentUser()"), ("fields", "summary,status,assignee")], none⟩

/-- `JiraClient::get_assigned_issues` (jira_api.rs lines 31–52): sends
the search request; a non-2xx status becomes a "JIRA API error" string, a
body that fails to decode becomes a decode error, and otherwise only the
first page of issues is returned. -/
def get_assigned_issues (c : JiraClient) (transport : Transport) :
    Except String (List JiraIssue) :=
  match transport (searchRequest c) with
  | .error e => .error e
  | .ok resp =>
    if !statusIsSuccess resp.status then
      .error ("JIRA API error: " ++ toString resp.status)
    else
      match resp.searchBody with
      | none => .error "error decoding response body"
      | some sr => .ok sr.issues

/-- The rich-text comment document built by `create_worklog` (jira_api.rs
lines 66–76): document → paragraph → text, version 1, wrapping the given
description. -/
def worklogCommentDoc (description : String) : WorklogComment :=
  ⟨"doc", 1, [⟨"paragraph", [⟨"text", description⟩]⟩]⟩

/-- The worklog creation request issued by `create_worklog` (jira_api.rs
lines 63–89): authenticated POST on the issue's worklog sub-resource,
carrying the `WorklogRequestBuilt` body as constructed at lines 65–80. -/
def createWorklogRequest (c : JiraClient) (issue_key description started : String)
    (time_spent_seconds : Nat) (visibility : Option WorklogVisibility) : HttpRequest :=
  ⟨.post, c.base_url ++ "/rest/api/3/issue/" ++ issue_key ++ "/worklog",
    [("Accept", "application/json"), ("Content-Type", "application/json")],
    c.email, c.access_token, [],
    some ⟨worklogCommentDoc description, started, time_spent_seconds, visibility⟩⟩

/-- `JiraClient::create_worklog` (jira_api.rs lines 55–97): sends the
worklog POST and decodes the response; same error handling as the issue
search. -/
def create_worklog (c : JiraClient) (transport : Transport)
    (issue_key description started : String) (time_spent_seconds : Nat)
    (visibility : Option WorklogVisibility) : Except String WorklogResponse :=
  match transport (createWorklogRequest c issue_key description started
      time_spent_seconds visibility) with
  | .error e => .error e
  | .ok resp =>
    if !statusIsSuccess resp.status then
      .error ("JIRA API error: " ++ toString resp.status)
    else
      match resp.worklogBody with
      | none => .error "error decoding response body"
      | some w => .ok w

end JiraClient

/-! ## Session commands (lib.rs)

The Tauri state `Mutex<Option<JiraClient>>` is modelled as an
`Option JiraClient` value threaded in and out of each command; the second
component of each result is the session cell after the command. -/

/-- The string rendering of a duration-parse error as the source produces
it (jira_api.rs lines 102, 113 and Rust's `ParseFloatError` display). -/
def TimeParseError.render : TimeParseError → String
  | .emptyInput => "Time string is empty"
  | .invalidFormat => "Invalid time format. Use 'h' for hours, 'm' for minutes, 'd' for days"
  | .numParse => "invalid float literal"

/-- `connect_to_jira` (lib.rs lines 43–66): builds a client from the
credentials, probes with `test_connection`, and only on a `true` probe
installs the client in the session cell; on a `false` probe or a probe
error the cell is left as it was. -/
def connect_to_jira (transport : Transport) (base_url email access_token : String)
    (st : Option JiraClient) : Except String Bool × Option JiraClient :=
  let client := JiraClient.new base_url email access_token
  match client.test_connection transport with
  | .ok is_connected =>
    if is_connected then (.ok true, some client)
    else (.error "Failed to connect to JIRA", st)
  | .error e => (.error ("Connection error: " ++ e), st)

/-- `get_assigned_issues` (lib.rs lines 68–86): clones the client out of
the session cell (never writing it); with no session the command fails
with the not-connected error. -/
def get_assigned_issues_cmd (transport : Transport) (st : Option JiraClient) :
    Except String (List JiraIssue) × Option JiraClient :=
  match st with
  | some client =>
    ((client.get_assigned_issues transport).mapError
        (fun e => "Failed to get issues: " ++ e), st)
  | none => (.error "Not connected to JIRA", st)

/-- `create_worklog` (lib.rs lines 88–120): clones the client out of the
session cell (never writing it), parses the duration string, and calls
`JiraClient::create_worklog` with `visibility = None`. -/
def create_worklog_cmd (transport : Transport)
    (issue_key description started time_spent : String)
    (st : Option JiraClient) :
    Except String WorklogResponse × Option JiraClient :=
  match st with
  | some client =>
    match JiraClient.parse_time_to_seconds time_spent with
    | .error e => (.error ("Invalid time format: " ++ e.render), st)
    | .ok time_spent_seconds =>
      ((client.create_worklog transport issue_key description started
          time_spent_seconds none).mapError
          (fun e => "Failed to create worklog: " ++ e), st)
  | none => (.error "Not connected to JIRA", st)

/-- `disconnect_from_jira` (lib.rs lines 122–129): unconditionally clears
the session cell and returns success. -/
def disconnect_from_jira (_st : Option JiraClient) :
    Except String Unit × Option JiraClient :=
  (.ok (), none)

/-! ## Reminder scheduler (lib.rs lines 18–35) -/

/-- The per-tick condition of `start_notification_scheduler`: the
daily-reminder signal is emitted exactly when the local wall clock reads
hour 17, minute 0. -/
def reminderFires (hour minute : Nat) : Bool :=
  hour == 17 && minute == 0

/-- A simulated 24-hour span of minute-by-minute local times (hour,
minute), one per 60-second tick of the scheduler loop. -/
def dayMinutes : List (Nat × Nat) :=
  (List.range (24 * 60)).map (fun t => (t / 60, t % 60))

/-- The ticks of a simulated run at which the scheduler emits the
daily-reminder signal. -/
def schedulerEmissions (ticks : List (Nat × Nat)) : List (Nat × Nat) :=
  ticks.filter (fun p => reminderFires p.1 p.2)


/-! ## Fixtures used by the witness theorems -/

/-- A transport that answers every request with the given status and no
decodable body. -/
def okTransport (status : Nat) : Transport :=
  fun _ => .ok ⟨status, none, none⟩

/-- A transport that fails below the HTTP layer with the given message. -/
def errTransport (msg : String) : Transport :=
  fun _ => .error msg

/-- A concrete client used to instantiate theorems. -/
def exampleClient : JiraClient :=
  JiraClient.new "https://jira.example.com" "user@example.com" "token123"

/-! ## Claim theorems -/

/-- C6: `test_connection` returns `ok` of the 2xx test on any delivered
response — so `ok true` exactly when the status is in the success range —
and a transport-level failure below the HTTP layer propagates as an
error, never folded into `false`. -/
theorem test_connection_success_iff (c : JiraClient) (transport : Transport) :
    (∀ resp, transport (JiraClient.myselfRequest c) = .ok resp →
        c.test_connection transport = .ok (statusIsSuccess resp.status))
    ∧ (∀ e, transport (JiraClient.myselfRequest c) = .error e →
        c.test_connection transport = .error e)
    ∧ (∀ status, statusIsSuccess status = true ↔ (200 ≤ status ∧ status ≤ 299)) := by
  refine ⟨?_, ?_, ?_⟩
  · intro resp h
    simp [JiraClient.test_connection, h]
  · intro e h
    simp [JiraClient.test_connection, h]
  · intro status
    simp [statusIsSuccess]

/-- Witness for C6: a 200 probe yields `ok true`, a failed transport
yields the transport error itself. -/
theorem test_connection_success_iff_witness :
    JiraClient.test_connection exampleClient (okTransport 200) = .ok true
    ∧ JiraClient.test_connection exampleClient (errTransport "dns failure")
        = .error "dns failure" := by
  constructor
  · have h := (test_connection_success_iff exampleClient (okTransport 200)).1
      ⟨200, none, none⟩ rfl
    rw [h]
    decide
  · exact (test_connection_success_iff exampleClient (errTransport "dns failure")).2.1
      "dns failure" rfl

/-- C2: when the connectivity probe returns false, `connect_to_jira`
returns the connection-failed error and leaves the session cell exactly
as it was (no session installed, a prior one retained); when the probe
itself errors, that error is surfaced and the cell is likewise
unchanged. -/
theorem connect_failure_preserves_session (transport : Transport)
    (b e a : String) (st : Option JiraClient) :
    ((JiraClient.new b e a).test_connection transport = .ok false →
        connect_to_jira transport b e a st = (.error "Failed to connect to JIRA", st))
    ∧ (∀ msg, (JiraClient.new b e a).test_connection transport = .error msg →
        connect_to_jira transport b e a st
          = (.error ("Connection error: " ++ msg), st)) := by
  constructor
  · intro h
    simp [connect_to_jira, h]
  · intro msg h
    simp [connect_to_jira, h]

/-- Witness for C2: a 401 probe response leaves a previously stored
session in place, and a transport failure surfaces as a connection
error, also preserving the cell. -/
theorem connect_failure_preserves_session_witness :
    connect_to_jira (okTransport 401) "https://jira.example.com" "user@example.com"
        "token123" (some exampleClient)
      = (.error "Failed to connect to JIRA", some exampleClient)
    ∧ connect_to_jira (errTransport "tls handshake failed") "https://jira.example.com"
        "user@example.com" "token123" (some exampleClient)
      = (.error ("Connection error: " ++ "tls handshake failed"), some exampleClient) := by
  constructor
  · exact (connect_failure_preserves_session (okTransport 401) "https://jira.example.com"
      "user@example.com" "token123" (some exampleClient)).1 (by decide)
  · exact (connect_failure_preserves_session (errTransport "tls handshake failed")
      "https://jira.example.com" "user@example.com" "token123" (some exampleClient)).2
      "tls handshake failed" rfl

/-- C7: a successful connect installs a client built from exactly the
given credentials, for any prior cell contents; disconnect empties the
cell from any prior state and always succeeds; and disconnect twice in a
row succeeds both times and leaves the cell empty. -/
theorem connect_installs_disconnect_clears (transport : Transport)
    (b e a : String) (st : Option JiraClient) :
    ((JiraClient.new b e a).test_connection transport = .ok true →
        connect_to_jira transport b e a st = (.ok true, some (JiraClient.new b e a)))
    ∧ disconnect_from_jira st = (.ok (), none)
    ∧ disconnect_from_jira (disconnect_from_jira st).2 = (.ok (), none) := by
  refine ⟨?_, rfl, rfl⟩
  intro h
  simp [connect_to_jira, h]

/-- Witness for C7: a 200 probe installs the example client over an
empty cell. -/
theorem connect_installs_disconnect_clears_witness :
    connect_to_jira (okTransport 200) "https://jira.example.com" "user@example.com"
        "token123" none
      = (.ok true, some exampleClient) := by
  exact (connect_installs_disconnect_clears (okTransport 200) "https://jira.example.com"
    "user@example.com" "token123" none).1 (by decide)

/-- C10: the issue-listing and worklog-creation commands never write the
session cell — the cell after each call equals the cell before, on the
success path and on every error path — and with no active session both
fail with the not-connected error. -/
theorem commands_preserve_session :
    (∀ (transport : Transport) (st : Option JiraClient),
        (get_assigned_issues_cmd transport st).2 = st)
    ∧ (∀ (transport : Transport) (ik d s ts : String) (st : Option JiraClient),
        (create_worklog_cmd transport ik d s ts st).2 = st)
    ∧ (∀ transport : Transport,
        get_assigned_issues_cmd transport none = (.error "Not connected to JIRA", none))
    ∧ (∀ (transport : Transport) (ik d s ts : String),
        create_worklog_cmd transport ik d s ts none
          = (.error "Not connected to JIRA", none)) := by
  refine ⟨?_, ?_, fun _ => rfl, fun _ _ _ _ _ => rfl⟩
  · intro transport st
    cases st <;> rfl
  · intro transport ik d s ts st
    cases st with
    | none => rfl
    | some client =>
      simp only [create_worklog_cmd]
      cases JiraClient.parse_time_to_seconds ts <;> rfl

set_option maxRecDepth 4000 in
/-- C8: over a simulated 24-hour span advancing minute by minute, the
scheduler's tick condition emits the daily-reminder signal exactly once,
at the tick whose local time is hour 17, minute 0, and at no other
minute. -/
theorem scheduler_fires_once_per_day :
    schedulerEmissions dayMinutes = [(17, 0)]
    ∧ (schedulerEmissions dayMinutes).length = 1
    ∧ (∀ h m : Nat, reminderFires h m = true ↔ (h = 17 ∧ m = 0)) := by
  refine ⟨by decide, by decide, ?_⟩
  intro h m
  simp [reminderFires]

/-- C4 counterexample: the whitespace-only input " " has an empty trimmed
form, yet `parse_time_to_seconds` rejects it with the invalid-format
error, not the empty-input error: the source tests emptiness on the
untrimmed input before trimming. -/
theorem empty_input_claim_counterexample :
    strTrim " " = ""
    ∧ JiraClient.parse_time_to_seconds " " = .error .invalidFormat
    ∧ TimeParseError.invalidFormat ≠ TimeParseError.emptyInput := by
  refine ⟨by decide, by decide, by decide⟩

/-- C4 amended: `parse_time_to_seconds` fails with the empty-input error
exactly when the input string itself is empty (the emptiness check runs
before trimming); a non-empty input whose trimmed form is empty fails
with the invalid-format error instead. -/
theorem empty_input_iff_untrimmed_empty (s : String) :
    (JiraClient.parse_time_to_seconds s = .error .emptyInput ↔ s = "")
    ∧ (s ≠ "" → strTrim s = "" →
        JiraClient.parse_time_to_seconds s = .error .invalidFormat) := by
  constructor
  · constructor
    · intro h
      by_cases hs : s = ""
      · exact hs
      · exfalso
        revert h
        simp only [JiraClient.parse_time_to_seconds, if_neg hs]
        cases hsp : splitUnit (strTrim s) with
        | none => simp
        | some p =>
          obtain ⟨np, u⟩ := p
          cases hpd : parseDecimal np with
          | none => simp [hpd]
          | some d => simp [hpd]
    · intro hs
      subst hs
      decide
  · intro hs htrim
    simp only [JiraClient.parse_time_to_seconds, if_neg hs, htrim]
    rfl

/-- Witness for C4 (amended): the empty string is rejected as empty
input, while a tab-only string is rejected as invalid format. -/
theorem empty_input_iff_untrimmed_empty_witness :
    JiraClient.parse_time_to_seconds "" = .error .emptyInput
    ∧ JiraClient.parse_time_to_seconds "\t" = .error .invalidFormat := by
  exact ⟨(empty_input_iff_untrimmed_empty "").1.mpr rfl,
    (empty_input_iff_untrimmed_empty "\t").2 (by decide) (by decide)⟩

/-- C9: a non-empty input whose trimmed form does not end in one of the
unit characters h, m, d fails with the invalid-format error (`splitUnit`
returning `none` is exactly that condition); when a unit is recognised
but the characters before it do not parse as a decimal number, the
failure is the numeric-parse error of the same family; and "5x" fails
with the invalid-format error. -/
theorem invalid_format_errors (s : String) :
    (s ≠ "" → splitUnit (strTrim s) = none →
        JiraClient.parse_time_to_seconds s = .error .invalidFormat)
    ∧ (∀ np u, s ≠ "" → splitUnit (strTrim s) = some (np, u) → parseDecimal np = none →
        JiraClient.parse_time_to_seconds s = .error .numParse)
    ∧ (∀ t, splitUnit t = none ↔
        (strEndsWithChar t 'h' = false ∧ strEndsWithChar t 'm' = false ∧
          strEndsWithChar t 'd' = false))
    ∧ JiraClient.parse_time_to_seconds "5x" = .error .invalidFormat := by
  refine ⟨?_, ?_, ?_, by decide⟩
  · intro hs hsp
    simp [JiraClient.parse_time_to_seconds, if_neg hs, hsp]
  · intro np u hs hsp hpd
    simp [JiraClient.parse_time_to_seconds, if_neg hs, hsp, hpd]
  · intro t
    by_cases h1 : strEndsWithChar t 'h' <;>
      by_cases h2 : strEndsWithChar t 'm' <;>
        by_cases h3 : strEndsWithChar t 'd' <;>
          simp [splitUnit, h1, h2, h3]

/-- Witness for C9: a trailing non-unit character is an invalid format;
a recognised unit with a non-numeric prefix is a numeric-parse error. -/
theorem invalid_format_errors_witness :
    JiraClient.parse_time_to_seconds "90s" = .error .invalidFormat
    ∧ JiraClient.parse_time_to_seconds "abch" = .error .numParse := by
  exact ⟨(invalid_format_errors "90s").1 (by decide) (by decide),
    (invalid_format_errors "abch").2.1 "abc" "h" (by decide) (by decide) (by decide)⟩

/-- C5 counterexample: "-2h" parses successfully but yields 0, not the
claimed -7200: the return type of `parse_time_to_seconds` is u32 and the
`as u32` cast saturates the negative product -7200 at zero. -/
theorem negative_duration_counterexample :
    JiraClient.parse_time_to_seconds "-2h" = .ok 0
    ∧ parseDecimal "-2" = some (.finite ⟨true, 2, 0⟩)
    ∧ DecNum.toRat ⟨true, 2, 0⟩ * 3600 = -7200
    ∧ (0 : Int) ≠ -7200 := by
  refine ⟨by decide, by decide, ?_, by decide⟩
  norm_num [DecNum.toRat]

/-- C5 amended: a negative decimal number followed by a valid unit
parses successfully, but instead of propagating a negative second count
the saturating u32 cast clamps the result to 0. -/
theorem negative_duration_saturates (s np u : String) (d : DecNum)
    (hs : s ≠ "") (hsp : splitUnit (strTrim s) = some (np, u))
    (hpd : parseDecimal np = some (.finite d)) (hneg : d.neg = true) :
    JiraClient.parse_time_to_seconds s = .ok 0 := by
  simp [JiraClient.parse_time_to_seconds, if_neg hs, hsp, hpd, floatScaleAsU32,
    decScaleAsU32, hneg]

/-- Witness for C5 (amended): "-1d" yields 0 seconds. -/
theorem negative_duration_saturates_witness :
    JiraClient.parse_time_to_seconds "-1d" = .ok 0 := by
  exact negative_duration_saturates "-1d" "-1" "d" ⟨true, 1, 0⟩ (by decide) (by decide)
    (by decide) rfl

/-- C1 counterexample: for "2000000h" the exact product 2000000 × 3600 =
7200000000 exceeds u32::MAX, and the `as u32` cast saturates, so the
parser returns 4294967295 rather than the truncated product. (Both
2000000 and 7200000000 are exactly representable in f32, so the
idealised exact model agrees with the Rust f32 value at this input.) -/
theorem parse_scaling_counterexample :
    JiraClient.parse_time_to_seconds "2000000h" = .ok 4294967295
    ∧ (2000000 * 3600 : Nat) = 7200000000
    ∧ (4294967295 : Nat) ≠ 7200000000 := by
  refine ⟨by decide, by decide, by decide⟩

/-- C1 amended: the parser multiplies the number by 3600 for h, 60 for m
and 8·3600 for d and applies the Rust saturating truncating `as u32`
cast to the f32 product; because the arithmetic is f32, the exact product
is only guaranteed where f32 arithmetic is exact, so the universal part
is stated for a non-negative integer number whose scaled product is
below `2 ^ 24` (both the number and the product are then exactly
representable in f32, making the exact model agree with the program):
there the result is exactly the number times the unit factor. The four
cited examples hold as stated (each is f32-exact). -/
theorem parse_scaling (s np : String) (n : Nat) :
    (s ≠ "" → splitUnit (strTrim s) = some (np, "h") →
        parseDecimal np = some (.finite ⟨false, n, 0⟩) → n * 3600 < 2 ^ 24 →
        JiraClient.parse_time_to_seconds s = .ok (n * 3600))
    ∧ (s ≠ "" → splitUnit (strTrim s) = some (np, "m") →
        parseDecimal np = some (.finite ⟨false, n, 0⟩) → n * 60 < 2 ^ 24 →
        JiraClient.parse_time_to_seconds s = .ok (n * 60))
    ∧ (s ≠ "" → splitUnit (strTrim s) = some (np, "d") →
        parseDecimal np = some (.finite ⟨false, n, 0⟩) → n * (8 * 3600) < 2 ^ 24 →
        JiraClient.parse_time_to_seconds s = .ok (n * (8 * 3600)))
    ∧ JiraClient.parse_time_to_seconds "2h" = .ok 7200
    ∧ JiraClient.parse_time_to_seconds "30m" = .ok 1800
    ∧ JiraClient.parse_time_to_seconds "1d" = .ok 28800
    ∧ JiraClient.parse_time_to_seconds "1.5h" = .ok 5400 := by
  refine ⟨?_, ?_, ?_, by decide, by decide, by decide, by decide⟩
  · intro hs hsp hpd h24
    simp [JiraClient.parse_time_to_seconds, if_neg hs, hsp, hpd, floatScaleAsU32,
      decScaleAsU32]
    omega
  · intro hs hsp hpd h24
    simp [JiraClient.parse_time_to_seconds, if_neg hs, hsp, hpd, floatScaleAsU32,
      decScaleAsU32]
    omega
  · intro hs hsp hpd h24
    simp [JiraClient.parse_time_to_seconds, if_neg hs, hsp, hpd, floatScaleAsU32,
      decScaleAsU32]
    omega

/-- Witness for C1 (amended): 120 hours is in the f32-exact integral
regime and yields exactly 120 × 3600 = 432000 seconds. -/
theorem parse_scaling_witness :
    JiraClient.parse_time_to_seconds "120h" = .ok 432000 := by
  have h := (parse_scaling "120h" "120" 120).1 (by decide) (by decide) (by decide) (by decide)
  simpa using h

/-- C3: the worklog request as constructed by `JiraClient::create_worklog`
carries the given second count as `timeSpentSeconds` and wraps the
description in the fixed three-level rich-text document (doc, version 1 →
paragraph → text), with the optional visibility passed through; at the
cited example the parsed duration "2h" is 7200 and the body is exactly
the claimed document wrapping "Fixed bug". (The claim matches this
construction site and the spec; the declaration of `WorklogRequest` in
jira_types.rs — modelled as `WorklogRequestDecl` — types `comment` as a
plain string with no visibility field, so the Rust crate as given does
not type-check: the code, not the claim, is at fault.) -/
theorem worklog_request_shape :
    (∀ (c : JiraClient) (ik desc st2 : String) (n : Nat) (vis : Option WorklogVisibility),
        (JiraClient.createWorklogRequest c ik desc st2 n vis).body
          = some ⟨⟨"doc", 1, [⟨"paragraph", [⟨"text", desc⟩]⟩]⟩, st2, n, vis⟩)
    ∧ JiraClient.parse_time_to_seconds "2h" = .ok 7200
    ∧ (JiraClient.createWorklogRequest exampleClient "PROJ-1" "Fixed bug"
          "2024-01-01T09:00:00" 7200 none).body
        = some ⟨⟨"doc", 1, [⟨"paragraph", [⟨"text", "Fixed bug"⟩]⟩]⟩,
            "2024-01-01T09:00:00", 7200, none⟩ := by
  exact ⟨fun c ik desc st2 n vis => rfl, by decide, rfl⟩
